import Mathlib

/-!
Shallow embedding of the `build_instructions` crate.

The crate has two halves:

* `src/rustc.rs` and part of `src/cargo.rs`: functions that emit cargo
  build-script directives, each as a single `println!` to standard output.
  We model standard output as an explicit `List String` of already-written
  lines; `println` appends one line, and each emitting function takes and
  returns the output state.

* `src/cargo.rs`: typed accessors over the process environment, each a
  direct call to `std::env::var(KEY)`.  We model the process environment
  explicitly as a map from variable names to optional OS values, where an
  OS value is either valid text or bytes that are not valid unicode
  (Rust's `VarError::NotUnicode` case).
-/

/-- Model of an OS environment value: either valid unicode text or not. -/
inductive OsValue where
  | valid (s : String)
  | invalid
deriving DecidableEq

/-- Model of the process environment (`std::env`): a partial map from
variable names to OS values. -/
def Env : Type := String → Option OsValue

/-- Model of `std::env::VarError`: `NotPresent` when the variable is unset,
`NotUnicode` (the spec's `InvalidEncoding`) when its bytes are not valid text. -/
inductive VarError where
  | notPresent
  | notUnicode
deriving DecidableEq

/-- Model of `std::env::var`: look a key up in the environment, surfacing
absence and invalid encoding as the two `VarError` cases. -/
def envVar (e : Env) (key : String) : Except VarError String :=
  match e key with
  | none => .error .notPresent
  | some (.valid s) => .ok s
  | some .invalid => .error .notUnicode

/-- Model of `std::path::PathBuf`: a path constructed from text.
`From<String> for PathBuf` performs no filesystem check, so the model is a
plain wrapper around the string. -/
structure PathBuf where
  inner : String
deriving DecidableEq

/-- Model of `Path::display()`: for a path built from valid unicode text this
renders the text unchanged. -/
def PathBuf.display (p : PathBuf) : String := p.inner

/-- Model of `println!`: write exactly one line to standard output. -/
def println (out : List String) (line : String) : List String := out ++ [line]

namespace Cargo

/-- Source `Cargo::rerun_if_changed` (src/cargo.rs): `println!("cargo::rerun-if-changed={path}")`. -/
def rerun_if_changed (path : PathBuf) (out : List String) : List String :=
  println out ("cargo::rerun-if-changed=" ++ path.display)

/-- Source `Cargo::rerun_if_env_changed` (src/cargo.rs): `println!("cargo::rerun-if-env-changed={env}")`. -/
def rerun_if_env_changed (env : String) (out : List String) : List String :=
  println out ("cargo::rerun-if-env-changed=" ++ env)

/-- Source `Cargo::warning` (src/cargo.rs): `println!("cargo::warning={message}")`. -/
def warning (message : String) (out : List String) : List String :=
  println out ("cargo::warning=" ++ message)

/-- Source `Cargo::metadata` (src/cargo.rs): `println!("cargo::metadata={key}={value}")`. -/
def metadata (key value : String) (out : List String) : List String :=
  println out ("cargo::metadata=" ++ key ++ "=" ++ value)

/-- Source `Cargo::binary_executable_path` (src/cargo.rs):
`std::env::var(format!("CARGO_BIN_EXE_{binary_name}")).map(Into::into)`. -/
def binary_executable_path (e : Env) (binary_name : String) : Except VarError PathBuf :=
  (envVar e ("CARGO_BIN_EXE_" ++ binary_name)).map PathBuf.mk

/-- Source `Cargo::is_primary_package` (src/cargo.rs):
`std::env::var("CARGO_PRIMARY_PACKAGE").is_ok()`. -/
def is_primary_package (e : Env) : Bool :=
  match envVar e "CARGO_PRIMARY_PACKAGE" with
  | .ok _ => true
  | .error _ => false

/-- Source `define_env_getter!` expansion: `std::env::var("CARGO").map(Into::into)` into `PathBuf`. -/
def binary_path (e : Env) : Except VarError PathBuf :=
  (envVar e "CARGO").map PathBuf.mk

/-- Source `std::env::var("CARGO_MANIFEST_DIR").map(Into::into)` into `PathBuf`. -/
def manifest_dir (e : Env) : Except VarError PathBuf :=
  (envVar e "CARGO_MANIFEST_DIR").map PathBuf.mk

/-- Source `std::env::var("CARGO_MANIFEST_PATH").map(Into::into)` into `PathBuf`. -/
def manifest_path (e : Env) : Except VarError PathBuf :=
  (envVar e "CARGO_MANIFEST_PATH").map PathBuf.mk

/-- Source `std::env::var("CARGO_PKG_VERSION").map(Into::into)` into `String`. -/
def pkg_version (e : Env) : Except VarError String :=
  envVar e "CARGO_PKG_VERSION"

/-- Source `std::env::var("CARGO_PKG_VERSION_MAJOR").map(Into::into)` into `String`. -/
def pkg_version_major (e : Env) : Except VarError String :=
  envVar e "CARGO_PKG_VERSION_MAJOR"

/-- Source `std::env::var("CARGO_PKG_VERSION_MINOR").map(Into::into)` into `String`. -/
def pkg_version_minor (e : Env) : Except VarError String :=
  envVar e "CARGO_PKG_VERSION_MINOR"

/-- Source `std::env::var("CARGO_PKG_VERSION_PATCH").map(Into::into)` into `String`. -/
def pkg_version_patch (e : Env) : Except VarError String :=
  envVar e "CARGO_PKG_VERSION_PATCH"

/-- Source `std::env::var("CARGO_PKG_VERSION_PRE").map(Into::into)` into `String`. -/
def pkg_version_pre (e : Env) : Except VarError String :=
  envVar e "CARGO_PKG_VERSION_PRE"

/-- Source `std::env::var("CARGO_PKG_AUTHORS").map(Into::into)` into `String`. -/
def pkg_authors (e : Env) : Except VarError String :=
  envVar e "CARGO_PKG_AUTHORS"

/-- Source `std::env::var("CARGO_PKG_NAME").map(Into::into)` into `String`. -/
def pkg_name (e : Env) : Except VarError String :=
  envVar e "CARGO_PKG_NAME"

/-- Source `std::env::var("CARGO_PKG_DESCRIPTION").map(Into::into)` into `String`. -/
def pkg_description (e : Env) : Except VarError String :=
  envVar e "CARGO_PKG_DESCRIPTION"

/-- Source `std::env::var("CARGO_PKG_HOMEPAGE").map(Into::into)` into `String`. -/
def pkg_homepage (e : Env) : Except VarError String :=
  envVar e "CARGO_PKG_HOMEPAGE"

/-- Source `std::env::var("CARGO_PKG_REPOSITORY").map(Into::into)` into `String`. -/
def pkg_repository (e : Env) : Except VarError String :=
  envVar e "CARGO_PKG_REPOSITORY"

/-- Source `std::env::var("CARGO_PKG_LICENSE").map(Into::into)` into `String`. -/
def pkg_license (e : Env) : Except VarError String :=
  envVar e "CARGO_PKG_LICENSE"

/-- Source `std::env::var("CARGO_PKG_LICENSE_FILE").map(Into::into)` into `PathBuf`. -/
def pkg_license_file (e : Env) : Except VarError PathBuf :=
  (envVar e "CARGO_PKG_LICENSE_FILE").map PathBuf.mk

/-- Source `std::env::var("CARGO_PKG_RUST_VERSION").map(Into::into)` into `String`. -/
def pkg_rust_version (e : Env) : Except VarError String :=
  envVar e "CARGO_PKG_RUST_VERSION"

/-- Source `std::env::var("CARGO_PKG_README").map(Into::into)` into `PathBuf`. -/
def pkg_readme (e : Env) : Except VarError PathBuf :=
  (envVar e "CARGO_PKG_README").map PathBuf.mk

/-- Source `std::env::var("CARGO_CRATE_NAME").map(Into::into)` into `String`. -/
def crate_name (e : Env) : Except VarError String :=
  envVar e "CARGO_CRATE_NAME"

/-- Source `std::env::var("CARGO_BIN_NAME").map(Into::into)` into `String`. -/
def bin_name (e : Env) : Except VarError String :=
  envVar e "CARGO_BIN_NAME"

/-- Source `std::env::var("OUT_DIR").map(Into::into)` into `PathBuf`. -/
def out_dir (e : Env) : Except VarError PathBuf :=
  (envVar e "OUT_DIR").map PathBuf.mk

/-- Source `std::env::var("CARGO_TARGET_TMPDIR").map(Into::into)` into `PathBuf`. -/
def target_tmpdir (e : Env) : Except VarError PathBuf :=
  (envVar e "CARGO_TARGET_TMPDIR").map PathBuf.mk

/-- Source `std::env::var("CARGO_RUSTC_CURRENT_DIR").map(Into::into)` into `PathBuf`. -/
def rustc_current_dir (e : Env) : Except VarError PathBuf :=
  (envVar e "CARGO_RUSTC_CURRENT_DIR").map PathBuf.mk

end Cargo

/-- Source `LinkSearchKind` (src/rustc.rs): the kinds of link search paths. -/
inductive LinkSearchKind where
  | dependency
  | crate
  | native
  | framework
  | all
deriving DecidableEq

/-- The `Display` impl for `LinkSearchKind` (src/rustc.rs): each variant
renders as a fixed lowercase word. -/
def LinkSearchKind.fmt : LinkSearchKind → String
  | .dependency => "dependency"
  | .crate => "crate"
  | .native => "native"
  | .framework => "framework"
  | .all => "all"

namespace Rustc

/-- Source `Rustc::link_arg` (src/rustc.rs): `println!("cargo::rustc-link-arg={flag}")`. -/
def link_arg (flag : String) (out : List String) : List String :=
  println out ("cargo::rustc-link-arg=" ++ flag)

/-- Source `Rustc::link_arg_bin` (src/rustc.rs): `println!("cargo::rustc-link-arg-bin={bin}={flag}")`. -/
def link_arg_bin (bin flag : String) (out : List String) : List String :=
  println out ("cargo::rustc-link-arg-bin=" ++ bin ++ "=" ++ flag)

/-- Source `Rustc::link_arg_bins` (src/rustc.rs): `println!("cargo::rustc-link-arg-bins={flag}")`. -/
def link_arg_bins (flag : String) (out : List String) : List String :=
  println out ("cargo::rustc-link-arg-bins=" ++ flag)

/-- Source `Rustc::link_lib` (src/rustc.rs): `println!("cargo::rustc-link-lib={lib}")`. -/
def link_lib (lib : String) (out : List String) : List String :=
  println out ("cargo::rustc-link-lib=" ++ lib)

/-- Source `Rustc::link_arg_tests` (src/rustc.rs): `println!("cargo::rustc-link-arg-tests={flag}")`. -/
def link_arg_tests (flag : String) (out : List String) : List String :=
  println out ("cargo::rustc-link-arg-tests=" ++ flag)

/-- Source `Rustc::link_arg_examples` (src/rustc.rs): `println!("cargo::rustc-link-arg-examples={flag}")`. -/
def link_arg_examples (flag : String) (out : List String) : List String :=
  println out ("cargo::rustc-link-arg-examples=" ++ flag)

/-- Source `Rustc::link_search` (src/rustc.rs): with a kind,
`println!("cargo::rustc-link-search={kind}={path}")`; without a kind,
`println!("carg::rustc-link-search={path}")` (the prefix as written in the source). -/
def link_search (path : PathBuf) (kind : Option LinkSearchKind) (out : List String) : List String :=
  match kind with
  | some k => println out ("cargo::rustc-link-search=" ++ k.fmt ++ "=" ++ path.display)
  | none => println out ("carg::rustc-link-search=" ++ path.display)

/-- Source `Rustc::flags` (src/rustc.rs): `println!("cargo::rustc-flags={flags}")`. -/
def flags (fl : String) (out : List String) : List String :=
  println out ("cargo::rustc-flags=" ++ fl)

/-- Source `Rustc::cfg` (src/rustc.rs): with a value,
`println!("cargo::rustc-cfg={key}=\"{value}\"")`; without,
`println!("cargo::rustc-cfg={key}")`. -/
def cfg (key : String) (value : Option String) (out : List String) : List String :=
  match value with
  | some v => println out ("cargo::rustc-cfg=" ++ key ++ "=\"" ++ v ++ "\"")
  | none => println out ("cargo::rustc-cfg=" ++ key)

/-- Source `Rustc::check_cfg` (src/rustc.rs): `println!("cargo::rustc-check-cfg={cfg}")`. -/
def check_cfg (c : String) (out : List String) : List String :=
  println out ("cargo::rustc-check-cfg=" ++ c)

/-- Source `Rustc::env` (src/rustc.rs): `println!("cargo::rustc-env={var}={value}")`. -/
def env (var value : String) (out : List String) : List String :=
  println out ("cargo::rustc-env=" ++ var ++ "=" ++ value)

/-- Source `Rustc::cdylib_link_arg` (src/rustc.rs): `println!("cargo::rustc-cdylib-link-arg={flag}")`. -/
def cdylib_link_arg (flag : String) (out : List String) : List String :=
  println out ("cargo::rustc-cdylib-link-arg=" ++ flag)

end Rustc

/-- The spec's `Directive` data model (§3): one tag per emitting operation of
the crate, carrying that operation's payload. -/
inductive Directive where
  | rerunIfChanged (path : PathBuf)
  | rerunIfEnvChanged (env : String)
  | warning (message : String)
  | metadata (key value : String)
  | linkArg (flag : String)
  | linkArgBin (bin flag : String)
  | linkArgBins (flag : String)
  | linkArgTests (flag : String)
  | linkArgExamples (flag : String)
  | cdylibLinkArg (flag : String)
  | linkLib (lib : String)
  | linkSearch (path : PathBuf) (kind : Option LinkSearchKind)
  | compilerFlags (fl : String)
  | cfg (key : String) (value : Option String)
  | checkCfg (c : String)
  | env (var value : String)

/-- Dispatch a `Directive` to the crate function that emits it. -/
def emitDirective : Directive → List String → List String
  | .rerunIfChanged p => Cargo.rerun_if_changed p
  | .rerunIfEnvChanged v => Cargo.rerun_if_env_changed v
  | .warning m => Cargo.warning m
  | .metadata k v => Cargo.metadata k v
  | .linkArg f => Rustc.link_arg f
  | .linkArgBin b f => Rustc.link_arg_bin b f
  | .linkArgBins f => Rustc.link_arg_bins f
  | .linkArgTests f => Rustc.link_arg_tests f
  | .linkArgExamples f => Rustc.link_arg_examples f
  | .cdylibLinkArg f => Rustc.cdylib_link_arg f
  | .linkLib l => Rustc.link_lib l
  | .linkSearch p k => Rustc.link_search p k
  | .compilerFlags f => Rustc.flags f
  | .cfg k v => Rustc.cfg k v
  | .checkCfg c => Rustc.check_cfg c
  | .env v w => Rustc.env v w

/-- Whether a directive is the unkinded link-search, the one directive whose
emitted line does not start with the `cargo` prefix. -/
def Directive.isUnkindedLinkSearch : Directive → Bool
  | .linkSearch _ none => true
  | _ => false

/-- Test environment: only `CARGO_PKG_NAME` is set, to the empty string. -/
def envPkgNameEmpty : Env :=
  fun k => if k = "CARGO_PKG_NAME" then some (.valid "") else none

/-- Test environment: only `OUT_DIR` is set, to bytes that are not valid text. -/
def envOutDirInvalid : Env :=
  fun k => if k = "OUT_DIR" then some .invalid else none

/-- Test environment: only `CARGO_PRIMARY_PACKAGE` is set, to bytes that are
not valid text. -/
def envPrimaryInvalid : Env :=
  fun k => if k = "CARGO_PRIMARY_PACKAGE" then some .invalid else none

/-- Test environment: only `CARGO_PRIMARY_PACKAGE` is set, to the empty string. -/
def envPrimaryEmpty : Env :=
  fun k => if k = "CARGO_PRIMARY_PACKAGE" then some (.valid "") else none

/-- Test environment: only `CARGO_BIN_EXE_FOO` (upper-case binary name) is set. -/
def envBinFooUpper : Env :=
  fun k => if k = "CARGO_BIN_EXE_FOO" then some (.valid "/bin/foo") else none

/-- Helper: pull a fixed leading literal out of an appended string. -/
theorem append_factor (pre rest m full : String) (h : pre ++ rest = full) :
    full ++ m = pre ++ (rest ++ m) := by
  rw [← h, String.append_assoc]

/-- C1: every directive variant's emit operation writes exactly one line to
standard output, and that line is exactly the section-6 format for the
variant — fields joined by equal signs, no escaping of embedded equal signs —
for every payload value, empty strings included. -/
theorem emit_matches_format_table (p : PathBuf) (v m k val fl lib c bin key : String)
    (kind : LinkSearchKind) (out : List String) :
    Cargo.rerun_if_changed p out = out ++ ["cargo::rerun-if-changed=" ++ p.display] ∧
    Cargo.rerun_if_env_changed v out = out ++ ["cargo::rerun-if-env-changed=" ++ v] ∧
    Cargo.warning m out = out ++ ["cargo::warning=" ++ m] ∧
    Cargo.metadata k val out = out ++ ["cargo::metadata=" ++ k ++ "=" ++ val] ∧
    Rustc.link_arg fl out = out ++ ["cargo::rustc-link-arg=" ++ fl] ∧
    Rustc.link_arg_bin bin fl out = out ++ ["cargo::rustc-link-arg-bin=" ++ bin ++ "=" ++ fl] ∧
    Rustc.link_arg_bins fl out = out ++ ["cargo::rustc-link-arg-bins=" ++ fl] ∧
    Rustc.link_arg_tests fl out = out ++ ["cargo::rustc-link-arg-tests=" ++ fl] ∧
    Rustc.link_arg_examples fl out = out ++ ["cargo::rustc-link-arg-examples=" ++ fl] ∧
    Rustc.cdylib_link_arg fl out = out ++ ["cargo::rustc-cdylib-link-arg=" ++ fl] ∧
    Rustc.link_lib lib out = out ++ ["cargo::rustc-link-lib=" ++ lib] ∧
    Rustc.link_search p (some kind) out =
      out ++ ["cargo::rustc-link-search=" ++ kind.fmt ++ "=" ++ p.display] ∧
    Rustc.link_search p none out = out ++ ["carg::rustc-link-search=" ++ p.display] ∧
    Rustc.flags fl out = out ++ ["cargo::rustc-flags=" ++ fl] ∧
    Rustc.cfg key none out = out ++ ["cargo::rustc-cfg=" ++ key] ∧
    Rustc.cfg key (some val) out = out ++ ["cargo::rustc-cfg=" ++ key ++ "=\"" ++ val ++ "\""] ∧
    Rustc.check_cfg c out = out ++ ["cargo::rustc-check-cfg=" ++ c] ∧
    Rustc.env v val out = out ++ ["cargo::rustc-env=" ++ v ++ "=" ++ val] :=
  ⟨rfl, rfl, rfl, rfl, rfl, rfl, rfl, rfl, rfl, rfl, rfl, rfl, rfl, rfl, rfl, rfl, rfl, rfl⟩

/-- C2: `link_search` with a kind writes the single namespaced line
`cargo::rustc-link-search=<kind>=<path>`; without a kind it writes a single
line under a distinct directive head different from the `cargo` one used
everywhere else, with the path as the only payload field. -/
theorem link_search_kinded_and_unkinded (p : PathBuf) (k : LinkSearchKind) (out : List String) :
    Rustc.link_search p (some k) out =
      out ++ ["cargo::rustc-link-search=" ++ k.fmt ++ "=" ++ p.display] ∧
    ∃ pfx : String, pfx ≠ "cargo" ∧
      Rustc.link_search p none out = out ++ [pfx ++ "::rustc-link-search=" ++ p.display] :=
  ⟨rfl, "carg", by decide, rfl⟩

/-- C3: `cfg` with a value writes `cargo::rustc-cfg=<key>="<value>"`, the value
unconditionally double-quoted with no escaping; `cfg` without a value writes
`cargo::rustc-cfg=<key>` with no quotes added. -/
theorem cfg_quoting (k v : String) (out : List String) :
    Rustc.cfg k (some v) out = out ++ ["cargo::rustc-cfg=" ++ k ++ "=\"" ++ v ++ "\""] ∧
    Rustc.cfg k none out = out ++ ["cargo::rustc-cfg=" ++ k] :=
  ⟨rfl, rfl⟩

/-- C4 counterexample: for `link_arg_bin` the payload after the directive name
is not the flag alone — at bin `b` and flag `f` the emitted line is
`cargo::rustc-link-arg-bin=b=f`, not `cargo::rustc-link-arg-bin=f` as the
claim's parenthetical asserts. -/
theorem link_arg_bin_payload_not_flag_only :
    Rustc.link_arg_bin "b" "f" [] ≠ ["cargo::rustc-link-arg-bin=f"] := by
  decide

/-- C4 amended: each target selector changes only the directive name and, for
the single-binary selector, inserts the binary name as an extra leading
payload field; the flag value itself is always encoded verbatim: the payload
is exactly the flag for the unscoped, all-binaries, tests, examples and cdylib
selectors, and is `<bin>=<flag>` for the single-binary selector. -/
theorem link_arg_selector_formats (bin f : String) (out : List String) :
    Rustc.link_arg f out = out ++ ["cargo::rustc-link-arg=" ++ f] ∧
    Rustc.link_arg_bins f out = out ++ ["cargo::rustc-link-arg-bins=" ++ f] ∧
    Rustc.link_arg_tests f out = out ++ ["cargo::rustc-link-arg-tests=" ++ f] ∧
    Rustc.link_arg_examples f out = out ++ ["cargo::rustc-link-arg-examples=" ++ f] ∧
    Rustc.cdylib_link_arg f out = out ++ ["cargo::rustc-cdylib-link-arg=" ++ f] ∧
    Rustc.link_arg_bin bin f out = out ++ ["cargo::rustc-link-arg-bin=" ++ (bin ++ ("=" ++ f))] := by
  refine ⟨rfl, rfl, rfl, rfl, rfl, ?_⟩
  simp [Rustc.link_arg_bin, println, String.append_assoc]

/-- C5: every environment accessor reads its fixed key through the same
lookup: an unset key yields `notPresent`; a key set to any valid text, the
empty string included, yields that text unchanged (or a path built from it,
with no filesystem check); a key whose bytes are not valid text yields
`notUnicode`. The generic behaviors are stated for an arbitrary key, and each
named accessor is identified with the generic lookup at its documented key. -/
theorem env_getters_read (e : Env) (key s : String) :
    (e key = none → envVar e key = .error .notPresent) ∧
    (e key = some (.valid s) → envVar e key = .ok s) ∧
    (e key = some .invalid → envVar e key = .error .notUnicode) ∧
    (e key = none → (envVar e key).map PathBuf.mk = .error .notPresent) ∧
    (e key = some (.valid s) → (envVar e key).map PathBuf.mk = .ok ⟨s⟩) ∧
    (e key = some .invalid → (envVar e key).map PathBuf.mk = .error .notUnicode) ∧
    Cargo.binary_path e = (envVar e "CARGO").map PathBuf.mk ∧
    Cargo.manifest_dir e = (envVar e "CARGO_MANIFEST_DIR").map PathBuf.mk ∧
    Cargo.manifest_path e = (envVar e "CARGO_MANIFEST_PATH").map PathBuf.mk ∧
    Cargo.pkg_version e = envVar e "CARGO_PKG_VERSION" ∧
    Cargo.pkg_version_major e = envVar e "CARGO_PKG_VERSION_MAJOR" ∧
    Cargo.pkg_version_minor e = envVar e "CARGO_PKG_VERSION_MINOR" ∧
    Cargo.pkg_version_patch e = envVar e "CARGO_PKG_VERSION_PATCH" ∧
    Cargo.pkg_version_pre e = envVar e "CARGO_PKG_VERSION_PRE" ∧
    Cargo.pkg_authors e = envVar e "CARGO_PKG_AUTHORS" ∧
    Cargo.pkg_name e = envVar e "CARGO_PKG_NAME" ∧
    Cargo.pkg_description e = envVar e "CARGO_PKG_DESCRIPTION" ∧
    Cargo.pkg_homepage e = envVar e "CARGO_PKG_HOMEPAGE" ∧
    Cargo.pkg_repository e = envVar e "CARGO_PKG_REPOSITORY" ∧
    Cargo.pkg_license e = envVar e "CARGO_PKG_LICENSE" ∧
    Cargo.pkg_license_file e = (envVar e "CARGO_PKG_LICENSE_FILE").map PathBuf.mk ∧
    Cargo.pkg_rust_version e = envVar e "CARGO_PKG_RUST_VERSION" ∧
    Cargo.pkg_readme e = (envVar e "CARGO_PKG_README").map PathBuf.mk ∧
    Cargo.crate_name e = envVar e "CARGO_CRATE_NAME" ∧
    Cargo.bin_name e = envVar e "CARGO_BIN_NAME" ∧
    Cargo.out_dir e = (envVar e "OUT_DIR").map PathBuf.mk ∧
    Cargo.target_tmpdir e = (envVar e "CARGO_TARGET_TMPDIR").map PathBuf.mk ∧
    Cargo.rustc_current_dir e = (envVar e "CARGO_RUSTC_CURRENT_DIR").map PathBuf.mk :=
  ⟨fun h => by simp [envVar, Except.map, h], fun h => by simp [envVar, Except.map, h], fun h => by simp [envVar, Except.map, h],
   fun h => by simp [envVar, Except.map, h], fun h => by simp [envVar, Except.map, h], fun h => by simp [envVar, Except.map, h],
   rfl, rfl, rfl, rfl, rfl, rfl, rfl, rfl, rfl, rfl, rfl,
   rfl, rfl, rfl, rfl, rfl, rfl, rfl, rfl, rfl, rfl, rfl⟩

/-- C5 witness: in an environment where only `CARGO_PKG_NAME` is set (to the
empty string), `pkg_name` succeeds with the empty string and `out_dir` fails
with `notPresent`; in one where `OUT_DIR` holds invalid bytes, `out_dir` fails
with `notUnicode`. -/
theorem env_getters_read_witness :
    Cargo.pkg_name envPkgNameEmpty = .ok "" ∧
    Cargo.out_dir envPkgNameEmpty = .error .notPresent ∧
    Cargo.out_dir envOutDirInvalid = .error .notUnicode :=
  ⟨(env_getters_read envPkgNameEmpty "CARGO_PKG_NAME" "").2.1 (by decide),
   (env_getters_read envPkgNameEmpty "OUT_DIR" "").2.2.2.1 (by decide),
   (env_getters_read envOutDirInvalid "OUT_DIR" "").2.2.2.2.2.1 (by decide)⟩

/-- C6 counterexample: with `CARGO_PRIMARY_PACKAGE` set to bytes that are not
valid text the variable is present, yet `is_primary_package` returns `false` —
refuting the claim that it returns true whenever the variable is set to any
value. -/
theorem is_primary_package_set_but_false :
    envPrimaryInvalid "CARGO_PRIMARY_PACKAGE" ≠ none ∧
    Cargo.is_primary_package envPrimaryInvalid = false := by
  exact ⟨by decide, by decide⟩

/-- C6 amended: `is_primary_package` returns a plain boolean and cannot fail;
it returns true exactly when `CARGO_PRIMARY_PACKAGE` is set to a value that is
valid text (the empty string included), and false when the variable is unset
or holds bytes that are not valid text. -/
theorem is_primary_package_iff_valid (e : Env) :
    Cargo.is_primary_package e = true ↔
      ∃ s, e "CARGO_PRIMARY_PACKAGE" = some (.valid s) := by
  unfold Cargo.is_primary_package envVar
  cases h : e "CARGO_PRIMARY_PACKAGE" with
  | none => simp
  | some v => cases v <;> simp

/-- C6 witness: with `CARGO_PRIMARY_PACKAGE` set to the empty string,
`is_primary_package` returns true. -/
theorem is_primary_package_iff_valid_witness :
    Cargo.is_primary_package envPrimaryEmpty = true :=
  (is_primary_package_iff_valid envPrimaryEmpty).mpr ⟨"", by decide⟩

/-- C7: `binary_executable_path` reads exactly the key obtained by
concatenating the fixed `CARGO_BIN_EXE_` preamble with the binary name,
case-sensitively; it fails with `notPresent` when that exact key is unset,
succeeds with the path built from the value when it holds valid text, and
fails with `notUnicode` when it holds invalid bytes — the same failure modes
as every other read. -/
theorem binary_executable_path_key (e : Env) (name s : String) :
    Cargo.binary_executable_path e name =
      (envVar e ("CARGO_BIN_EXE_" ++ name)).map PathBuf.mk ∧
    (e ("CARGO_BIN_EXE_" ++ name) = none →
      Cargo.binary_executable_path e name = .error .notPresent) ∧
    (e ("CARGO_BIN_EXE_" ++ name) = some (.valid s) →
      Cargo.binary_executable_path e name = .ok ⟨s⟩) ∧
    (e ("CARGO_BIN_EXE_" ++ name) = some .invalid →
      Cargo.binary_executable_path e name = .error .notUnicode) :=
  ⟨rfl,
   fun h => by simp [Cargo.binary_executable_path, envVar, Except.map, h],
   fun h => by simp [Cargo.binary_executable_path, envVar, Except.map, h],
   fun h => by simp [Cargo.binary_executable_path, envVar, Except.map, h]⟩

/-- C7 witness: with only `CARGO_BIN_EXE_FOO` set, looking up binary name
`foo` fails with `notPresent` even though the differently-cased key is
present, while looking up `FOO` succeeds with the stored path. -/
theorem binary_executable_path_key_witness :
    envBinFooUpper "CARGO_BIN_EXE_FOO" = some (.valid "/bin/foo") ∧
    Cargo.binary_executable_path envBinFooUpper "foo" = .error .notPresent ∧
    Cargo.binary_executable_path envBinFooUpper "FOO" = .ok ⟨"/bin/foo"⟩ :=
  ⟨by decide,
   (binary_executable_path_key envBinFooUpper "foo" "").2.1 (by decide),
   (binary_executable_path_key envBinFooUpper "FOO" "/bin/foo").2.2.1 (by decide)⟩

/-- C8: directive encoding is pure and state-independent: emitting any
directive on any prior output appends exactly the lines it would produce on
empty output — so the written line is a function of the directive alone, does
not depend on previously emitted directives, and every directive encodes to
exactly one line. -/
theorem directive_encoding_pure_one_line (d : Directive) (out : List String) :
    emitDirective d out = out ++ emitDirective d [] ∧
    (emitDirective d []).length = 1 := by
  cases d with
  | linkSearch p k => cases k <;> simp [emitDirective, Rustc.link_search, println]
  | cfg k v => cases v <;> simp [emitDirective, Rustc.cfg, println]
  | rerunIfChanged p => simp [emitDirective, Cargo.rerun_if_changed, println]
  | rerunIfEnvChanged v => simp [emitDirective, Cargo.rerun_if_env_changed, println]
  | warning m => simp [emitDirective, Cargo.warning, println]
  | metadata k v => simp [emitDirective, Cargo.metadata, println]
  | linkArg f => simp [emitDirective, Rustc.link_arg, println]
  | linkArgBin b f => simp [emitDirective, Rustc.link_arg_bin, println]
  | linkArgBins f => simp [emitDirective, Rustc.link_arg_bins, println]
  | linkArgTests f => simp [emitDirective, Rustc.link_arg_tests, println]
  | linkArgExamples f => simp [emitDirective, Rustc.link_arg_examples, println]
  | cdylibLinkArg f => simp [emitDirective, Rustc.cdylib_link_arg, println]
  | linkLib l => simp [emitDirective, Rustc.link_lib, println]
  | compilerFlags f => simp [emitDirective, Rustc.flags, println]
  | checkCfg c => simp [emitDirective, Rustc.check_cfg, println]
  | env v w => simp [emitDirective, Rustc.env, println]

/-- C9: the distinct head of the unkinded link-search line is literally
`carg` — the standard `cargo` head with its final letter missing — so
`link_search` without a kind writes exactly
`carg::rustc-link-search=<path>`, while every other directive's line
(the kinded link-search included) starts with `cargo::`. -/
theorem link_search_unkinded_carg (p : PathBuf) (out : List String) :
    Rustc.link_search p none out = out ++ ["carg::rustc-link-search=" ++ p.display] ∧
    ∀ d : Directive, d.isUnkindedLinkSearch = false →
      ∃ r, emitDirective d out = out ++ ["cargo::" ++ r] := by
  refine ⟨rfl, ?_⟩
  intro d h
  cases d with
  | rerunIfChanged q =>
      exact ⟨"rerun-if-changed=" ++ q.display, by
        simp [emitDirective, Cargo.rerun_if_changed, println,
          append_factor "cargo::" "rerun-if-changed=" q.display "cargo::rerun-if-changed=" rfl]⟩
  | rerunIfEnvChanged v =>
      exact ⟨"rerun-if-env-changed=" ++ v, by
        simp [emitDirective, Cargo.rerun_if_env_changed, println,
          append_factor "cargo::" "rerun-if-env-changed=" v "cargo::rerun-if-env-changed=" rfl]⟩
  | warning m =>
      exact ⟨"warning=" ++ m, by
        simp [emitDirective, Cargo.warning, println,
          append_factor "cargo::" "warning=" m "cargo::warning=" rfl]⟩
  | metadata k v =>
      exact ⟨"metadata=" ++ k ++ "=" ++ v, by
        simp [emitDirective, Cargo.metadata, println, String.append_assoc,
          append_factor "cargo::" "metadata=" (k ++ ("=" ++ v)) "cargo::metadata=" rfl]⟩
  | linkArg f =>
      exact ⟨"rustc-link-arg=" ++ f, by
        simp [emitDirective, Rustc.link_arg, println,
          append_factor "cargo::" "rustc-link-arg=" f "cargo::rustc-link-arg=" rfl]⟩
  | linkArgBin b f =>
      exact ⟨"rustc-link-arg-bin=" ++ b ++ "=" ++ f, by
        simp [emitDirective, Rustc.link_arg_bin, println, String.append_assoc,
          append_factor "cargo::" "rustc-link-arg-bin=" (b ++ ("=" ++ f))
            "cargo::rustc-link-arg-bin=" rfl]⟩
  | linkArgBins f =>
      exact ⟨"rustc-link-arg-bins=" ++ f, by
        simp [emitDirective, Rustc.link_arg_bins, println,
          append_factor "cargo::" "rustc-link-arg-bins=" f "cargo::rustc-link-arg-bins=" rfl]⟩
  | linkArgTests f =>
      exact ⟨"rustc-link-arg-tests=" ++ f, by
        simp [emitDirective, Rustc.link_arg_tests, println,
          append_factor "cargo::" "rustc-link-arg-tests=" f "cargo::rustc-link-arg-tests=" rfl]⟩
  | linkArgExamples f =>
      exact ⟨"rustc-link-arg-examples=" ++ f, by
        simp [emitDirective, Rustc.link_arg_examples, println,
          append_factor "cargo::" "rustc-link-arg-examples=" f
            "cargo::rustc-link-arg-examples=" rfl]⟩
  | cdylibLinkArg f =>
      exact ⟨"rustc-cdylib-link-arg=" ++ f, by
        simp [emitDirective, Rustc.cdylib_link_arg, println,
          append_factor "cargo::" "rustc-cdylib-link-arg=" f
            "cargo::rustc-cdylib-link-arg=" rfl]⟩
  | linkLib l =>
      exact ⟨"rustc-link-lib=" ++ l, by
        simp [emitDirective, Rustc.link_lib, println,
          append_factor "cargo::" "rustc-link-lib=" l "cargo::rustc-link-lib=" rfl]⟩
  | linkSearch q kind =>
      cases kind with
      | none => simp [Directive.isUnkindedLinkSearch] at h
      | some kd =>
          exact ⟨"rustc-link-search=" ++ kd.fmt ++ "=" ++ q.display, by
            simp [emitDirective, Rustc.link_search, println, String.append_assoc,
              append_factor "cargo::" "rustc-link-search=" (kd.fmt ++ ("=" ++ q.display))
                "cargo::rustc-link-search=" rfl]⟩
  | compilerFlags f =>
      exact ⟨"rustc-flags=" ++ f, by
        simp [emitDirective, Rustc.flags, println,
          append_factor "cargo::" "rustc-flags=" f "cargo::rustc-flags=" rfl]⟩
  | cfg k v =>
      cases v with
      | none =>
          exact ⟨"rustc-cfg=" ++ k, by
            simp [emitDirective, Rustc.cfg, println,
              append_factor "cargo::" "rustc-cfg=" k "cargo::rustc-cfg=" rfl]⟩
      | some w =>
          exact ⟨"rustc-cfg=" ++ k ++ "=\"" ++ w ++ "\"", by
            simp [emitDirective, Rustc.cfg, println, String.append_assoc,
              append_factor "cargo::" "rustc-cfg=" (k ++ ("=\"" ++ (w ++ "\"")))
                "cargo::rustc-cfg=" rfl]⟩
  | checkCfg c =>
      exact ⟨"rustc-check-cfg=" ++ c, by
        simp [emitDirective, Rustc.check_cfg, println,
          append_factor "cargo::" "rustc-check-cfg=" c "cargo::rustc-check-cfg=" rfl]⟩
  | env v w =>
      exact ⟨"rustc-env=" ++ v ++ "=" ++ w, by
        simp [emitDirective, Rustc.env, println, String.append_assoc,
          append_factor "cargo::" "rustc-env=" (v ++ ("=" ++ w)) "cargo::rustc-env=" rfl]⟩

/-- C9 witness: on a concrete path the unkinded link-search line is exactly
the `carg`-headed one, and a concrete other directive's line starts with
`cargo::`. -/
theorem link_search_unkinded_carg_witness :
    Rustc.link_search ⟨"/lib"⟩ none [] = ["carg::rustc-link-search=/lib"] ∧
    ∃ r, emitDirective (.warning "w") [] = [] ++ ["cargo::" ++ r] := by
  have h := link_search_unkinded_carg ⟨"/lib"⟩ []
  exact ⟨h.1.trans (by decide), h.2 (.warning "w") rfl⟩

/-- C10: each search-kind renders into the kinded link-search line as its
fixed lowercase word — `dependency`, `crate`, `native`, `framework`, `all` —
placed between the first and second equal signs of the line: the line
decomposes as the directive name (which contains no equal sign), one equal
sign, the kind's word (which contains no equal sign), another equal sign, and
the path. -/
theorem link_search_kind_words (p : PathBuf) (k : LinkSearchKind) (out : List String) :
    Rustc.link_search p (some k) out =
      out ++ ["cargo::rustc-link-search" ++ "=" ++ k.fmt ++ "=" ++ p.display] ∧
    LinkSearchKind.fmt .dependency = "dependency" ∧
    LinkSearchKind.fmt .crate = "crate" ∧
    LinkSearchKind.fmt .native = "native" ∧
    LinkSearchKind.fmt .framework = "framework" ∧
    LinkSearchKind.fmt .all = "all" ∧
    ¬ ('=' ∈ "cargo::rustc-link-search".data) ∧
    ¬ ('=' ∈ (LinkSearchKind.fmt k).data) := by
  refine ⟨rfl, rfl, rfl, rfl, rfl, rfl, by decide, ?_⟩
  cases k <;> decide
